import Mathlib

/-!
Verification of the search-session and metadata components of the pytube
repository (src/pytube/contrib/search.py and src/pytube/metadata.py).

The Python code manipulates loosely structured JSON documents.  We embed
JSON values as the inductive type `JVal` (objects are association lists in
document order) and translate each Python function into a Lean function
over `JVal`.  Python exceptions are embedded as the error type `PyErr`
through `Except`; a Python method that mutates the session object and may
raise is embedded as a function `Session → Session × Except PyErr α`, so
that mutations performed before an exception is raised are preserved in
the returned state, exactly as in Python.

Notes on fidelity kept throughout, marked at the relevant definitions:
* the external Query Client (`InnerTube.search`, imported by the source
  but outside this repository) is modelled from the spec as an oracle
  stream of JSON documents consumed one per call;
* Python `x in d` on a non-dict, `str()` rendering of containers inside
  f-strings, and underscore/unicode digit forms of `int()` are
  approximated where no claim depends on them (comments at each spot).
-/

set_option autoImplicit false

namespace PytubeSearch

/-- Embedded JSON values.  Objects are association lists (Python dicts in
insertion order, duplicate keys never arise from real JSON). -/
inductive JVal where
  | null : JVal
  | bool : Bool → JVal
  | num : Int → JVal
  | str : String → JVal
  | arr : List JVal → JVal
  | obj : List (String × JVal) → JVal

/-- Embedded Python exception classes raised by the translated code. -/
inductive PyErr where
  | keyError : String → PyErr
  | typeError : PyErr
  | indexError : PyErr
  | valueError : PyErr
  | attributeError : PyErr
  | transportError : PyErr
deriving DecidableEq

/-- Python truthiness of an embedded JSON value (`bool(x)`). -/
def pyTruthy : JVal → Bool
  | .null => false
  | .bool b => b
  | .num n => n != 0
  | .str s => s != ""
  | .arr xs => !xs.isEmpty
  | .obj fs => !fs.isEmpty

/-- Key lookup on a JSON object, `none` when the key is absent or the
value is not an object. -/
def JVal.getKey? : JVal → String → Option JVal
  | .obj fs, k => fs.lookup k
  | _, _ => none

/-- Python `k in d` for dict values.  On a non-dict Python would perform
membership/substring tests or raise; every translated call site only
reaches this after the value was already subscripted as a dict, so the
non-dict case is unreachable there and we return `false`. -/
def JVal.hasKey (v : JVal) (k : String) : Bool :=
  (v.getKey? k).isSome

/-- Python `d[k]` subscription: `KeyError` on a missing key, `TypeError`
when the value is not a dict. -/
def JVal.index : JVal → String → Except PyErr JVal
  | .obj fs, k =>
    match fs.lookup k with
    | some v => .ok v
    | none => .error (.keyError k)
  | _, _ => .error .typeError

/-- Python `xs[i]` subscription on a list: `IndexError` out of range,
`TypeError` when the value is not a list. -/
def JVal.indexNat : JVal → Nat → Except PyErr JVal
  | .arr xs, i =>
    match xs.get? i with
    | some v => .ok v
    | none => .error .indexError
  | _, _ => .error .typeError

/-- Python `d.get(k, default)`: `AttributeError` when the receiver is not
a dict (no `get` method). -/
def pyGetD : JVal → String → JVal → Except PyErr JVal
  | .obj fs, k, d => .ok ((fs.lookup k).getD d)
  | _, _, _ => .error .attributeError

/-- Iterating a Python value with `for`: we only model iteration over
JSON lists; iterating anything else is embedded as `TypeError` (Python
would raise for non-iterables; dict/str iteration never yields the dict
entries the loop bodies require and no claim exercises it). -/
def asList : JVal → Except PyErr (List JVal)
  | .arr xs => .ok xs
  | _ => .error .typeError

/-- Calling a `str` method such as `.split` on a value: `AttributeError`
when it is not a string. -/
def asStr : JVal → Except PyErr String
  | .str s => .ok s
  | _ => .error .attributeError

/-- Truthiness of a Python variable that is either `None` or a JSON
value. -/
def pyOptTruthy : Option JVal → Bool
  | none => false
  | some v => pyTruthy v

/-- Auxiliary worker for Python `str.split()` (split on whitespace runs,
discarding empty fields); `acc` holds the current word reversed. -/
def wordsAux : List Char → List Char → List String
  | [], acc => if acc.isEmpty then [] else [String.mk acc.reverse]
  | c :: cs, acc =>
    if c.isWhitespace then
      if acc.isEmpty then wordsAux cs [] else String.mk acc.reverse :: wordsAux cs []
    else wordsAux cs (c :: acc)

/-- Python `s.split()` with no separator argument. -/
def pySplit (s : String) : List String :=
  wordsAux s.data []

/-- Python `s.replace(",", "")`: removing every comma equals filtering
the comma character out. -/
def stripCommas (s : String) : String :=
  String.mk (s.data.filter (fun c => c != ','))

/-- Accumulate decimal digits; `none` on the first non-digit. -/
def digitsVal : List Char → Nat → Option Nat
  | [], acc => some acc
  | c :: cs, acc =>
    if c.isDigit then digitsVal cs (acc * 10 + (c.toNat - 48)) else none

/-- Python `int(s)` on a decimal string: optional surrounding
whitespace, optional sign, then at least one digit.  (Underscore digit
grouping and non-ASCII digits, which Python also accepts, are not
modelled; no view-count text contains them and no claim depends on
them.)  `none` embeds `ValueError`. -/
def pyInt? (s : String) : Option Int :=
  let core := ((s.data.dropWhile Char.isWhitespace).reverse.dropWhile Char.isWhitespace).reverse
  match core with
  | '-' :: rest =>
    if rest.isEmpty then none else (digitsVal rest 0).map (fun n => -(n : Int))
  | '+' :: rest =>
    if rest.isEmpty then none else (digitsVal rest 0).map (fun n => (n : Int))
  | cs =>
    if cs.isEmpty then none else (digitsVal cs 0).map (fun n => (n : Int))

/-- Rendering a value inside an f-string (`f"...{id}"`).  Strings render
as themselves; the container renderings are placeholders (every claim
only ever renders string-valued ids). -/
def jValToStr : JVal → String
  | .str s => s
  | .num n => toString n
  | .bool true => "True"
  | .bool false => "False"
  | .null => "None"
  | .arr _ => "<list>"
  | .obj _ => "<dict>"

/-- Python dict assignment `m[k] = v` on an association list: replace
the first binding of `k`, appending when absent (dicts keep the original
insertion position on overwrite). -/
def setKey : List (String × JVal) → String → JVal → List (String × JVal)
  | [], k, v => [(k, v)]
  | (k', v') :: rest, k, v =>
    if k' = k then (k', v) :: rest else (k', v') :: setKey rest k v

/-! ## Result Parser (Search._parse_video, _parse_channel, fetch_and_parse body) -/

/-- Fields extracted for one video search result by `Search._parse_video`:
the `metadata` dict it builds plus the seeded YouTube object (whose url,
author and title are exactly `url`, `channel_name`, `title` below; the
construction of a full `YouTube` object is outside this repository). -/
structure VideoResult where
  videoId : JVal
  url : String
  title : JVal
  channel_name : JVal
  channel_url : JVal
  view_count : Int
  length : Option JVal

/-- A typed search result: a video row or a channel row
(`Search._parse_channel` keeps only the channel id and derived url). -/
inductive SearchResult where
  | video : VideoResult → SearchResult
  | channel : (channelId : JVal) → (channel_url : String) → SearchResult

/-- Lines 104-109 of search.py applied to the selected view-count text
value: take the first whitespace word, remove commas, map the literal
`No` to 0, parse anything else with `int` (a `ValueError` when
non-numeric). -/
def view_count_from_text (tv : JVal) : Except PyErr Int :=
  match asStr tv with
  | .error e => .error e
  | .ok s =>
    match (pySplit s).head? with
    | none => .error .indexError
    | some w0 =>
      let stripped := stripCommas w0
      if stripped = "No" then .ok 0
      else
        match pyInt? stripped with
        | some n => .ok n
        | none => .error .valueError

/-- View-count extraction from a video renderer, lines 97-111 of
search.py: livestream rich text uses `viewCountText.runs[0].text`,
normal content `viewCountText.simpleText`; an absent `viewCountText`
maps to 0. -/
def parse_view_count (renderer : JVal) : Except PyErr Int :=
  match renderer.getKey? "viewCountText" with
  | none => .ok 0
  | some vct =>
    match (if vct.hasKey "runs" then
             match vct.index "runs" with
             | .error e => .error e
             | .ok runs =>
               match runs.indexNat 0 with
               | .error e => .error e
               | .ok r0 => r0.index "text"
           else vct.index "simpleText") with
    | .error e => .error e
    | .ok tv => view_count_from_text tv

/-- `Search._parse_video`, field accesses in source order; any failing
access raises and propagates to the caller (the source has no handler). -/
def parse_video (video_details : JVal) : Except PyErr SearchResult := do
  let renderer ← video_details.index "videoRenderer"
  let idv ← renderer.index "videoId"
  let url := "https://www.youtube.com/watch?v=" ++ jValToStr idv
  let titleObj ← renderer.index "title"
  let titleRuns ← titleObj.index "runs"
  let titleRun0 ← titleRuns.indexNat 0
  let title ← titleRun0.index "text"
  let ownerObj ← renderer.index "ownerText"
  let ownerRuns ← ownerObj.index "runs"
  let ownerRun0 ← ownerRuns.indexNat 0
  let channel_name ← ownerRun0.index "text"
  let navEp ← ownerRun0.index "navigationEndpoint"
  let cmdMeta ← navEp.index "commandMetadata"
  let webMeta ← cmdMeta.index "webCommandMetadata"
  let channel_url ← webMeta.index "url"
  let view_count ← parse_view_count renderer
  let length ←
    match renderer.getKey? "lengthText" with
    | some lt =>
      match lt.index "simpleText" with
      | .error e => .error e
      | .ok v => .ok (some v)
    | none => .ok (none : Option JVal)
  .ok (.video { videoId := idv, url := url, title := title,
                channel_name := channel_name, channel_url := channel_url,
                view_count := view_count, length := length })

/-- `Search._parse_channel`. -/
def parse_channel (channel_details : JVal) : Except PyErr SearchResult := do
  let renderer ← channel_details.index "channelRenderer"
  let cid ← renderer.index "channelId"
  .ok (.channel cid ("https://www.youtube.com/channel/" ++ jValToStr cid))

/-- One iteration of the entry loop of `Search.fetch_and_parse` (lines
182-233): `.ok none` embeds `continue` (discarded or unrecognized entry,
the latter only logs a warning), `.ok (some r)` an appended result, and
`.error` an uncaught exception aborting the whole page. -/
def classifyEntry (details : JVal) : Except PyErr (Option SearchResult) :=
  match pyGetD details "searchPyvRenderer" (.obj []) with
  | .error e => .error e
  | .ok pyv =>
    match pyGetD pyv "ads" .null with
    | .error e => .error e
    | .ok ads =>
      if pyTruthy ads then .ok none
      else if details.hasKey "shelfRenderer" then .ok none
      else if details.hasKey "radioRenderer" then .ok none
      else if details.hasKey "playlistRenderer" then .ok none
      else if details.hasKey "horizontalCardListRenderer" then .ok none
      else if details.hasKey "didYouMeanRenderer" then .ok none
      else if details.hasKey "backgroundPromoRenderer" then .ok none
      else if details.hasKey "videoRenderer" then
        match parse_video details with
        | .error e => .error e
        | .ok v => .ok (some v)
      else if details.hasKey "channelRenderer" then
        match parse_channel details with
        | .error e => .error e
        | .ok c => .ok (some c)
      else .ok none

/-- The entry loop of `Search.fetch_and_parse` over the item-section
contents, in order; the first uncaught exception aborts the page. -/
def extractResults : List JVal → Except PyErr (List SearchResult)
  | [] => .ok []
  | d :: rest =>
    match classifyEntry d with
    | .error e => .error e
    | .ok none => extractResults rest
    | .ok (some r) =>
      match extractResults rest with
      | .error e => .error e
      | .ok rs => .ok (r :: rs)

/-- The initial-page envelope path (the `try` block of
`Search.fetch_and_parse`). -/
def initialPath (raw : JVal) : Except PyErr JVal :=
  match raw.index "contents" with
  | .error e => .error e
  | .ok c =>
    match c.index "twoColumnSearchResultsRenderer" with
    | .error e => .error e
    | .ok t =>
      match t.index "primaryContents" with
      | .error e => .error e
      | .ok p =>
        match p.index "sectionListRenderer" with
        | .error e => .error e
        | .ok sl => sl.index "contents"

/-- The continuation-page envelope path (the `except KeyError` block). -/
def continuationPath (raw : JVal) : Except PyErr JVal :=
  match raw.index "onResponseReceivedCommands" with
  | .error e => .error e
  | .ok c =>
    match c.indexNat 0 with
    | .error e => .error e
    | .ok c0 =>
      match c0.index "appendContinuationItemsAction" with
      | .error e => .error e
      | .ok a => a.index "continuationItems"

/-- Envelope selection: try the initial-page path, fall back to the
continuation-page path only on `KeyError` (Python catches exactly
`KeyError` there; a `TypeError` from subscripting a non-dict
propagates). -/
def locateSections (raw : JVal) : Except PyErr JVal :=
  match initialPath raw with
  | .ok s => .ok s
  | .error (.keyError _) => continuationPath raw
  | .error e => .error e

/-- The section scan (lines 162-166): later occurrences overwrite
earlier ones; the accumulator is `(item_renderer, continuation_renderer)`. -/
def scanSectionsAux : Option JVal × Option JVal → List JVal → Option JVal × Option JVal
  | acc, [] => acc
  | acc, s :: rest =>
    scanSectionsAux
      ((if s.hasKey "itemSectionRenderer" then s.getKey? "itemSectionRenderer" else acc.1),
       (if s.hasKey "continuationItemRenderer" then s.getKey? "continuationItemRenderer" else acc.2))
      rest

/-- Scan the located sections for the item section and continuation
item, both starting out as Python `None`. -/
def scanSections (secs : List JVal) : Option JVal × Option JVal :=
  scanSectionsAux (none, none) secs

/-- Token extraction (lines 169-172): `if continuation_renderer:` is a
truthiness test, so an absent or falsy renderer yields `None`. -/
def nextTokenOf : Option JVal → Except PyErr (Option JVal)
  | none => .ok none
  | some c =>
    if pyTruthy c then
      match c.index "continuationEndpoint" with
      | .error e => .error e
      | .ok ep =>
        match ep.index "continuationCommand" with
        | .error e => .error e
        | .ok cc =>
          match cc.index "token" with
          | .error e => .error e
          | .ok t => .ok (some t)
    else .ok none

/-- Result-list extraction (lines 174-233): `if item_renderer:` is a
truthiness test; an absent or falsy item section leaves `results = None`,
a present one yields a (possibly empty) list. -/
def pageResults : Option JVal → Except PyErr (Option (List SearchResult))
  | none => .ok none
  | some ir =>
    if pyTruthy ir then
      match ir.index "contents" with
      | .error e => .error e
      | .ok contents =>
        match asList contents with
        | .error e => .error e
        | .ok cs =>
          match extractResults cs with
          | .error e => .error e
          | .ok rs => .ok (some rs)
    else .ok none

/-- The parsing portion of `Search.fetch_and_parse` applied to one raw
document (everything after the `fetch_query` call), in source
evaluation order: envelope, scan, token, then the entry loop. -/
def parse_page (raw : JVal) : Except PyErr (Option (List SearchResult) × Option JVal) :=
  match locateSections raw with
  | .error e => .error e
  | .ok sj =>
    match asList sj with
    | .error e => .error e
    | .ok secs =>
      match nextTokenOf (scanSections secs).2 with
      | .error e => .error e
      | .ok tok =>
        match pageResults (scanSections secs).1 with
        | .error e => .error e
        | .ok res => .ok (res, tok)

/-! ## Search Session (Search.__init__, results, get_next_results,
completion_suggestions, fetch_query) -/

/-- The mutable fields set up by `Search.__init__` (the filter `param`
is pass-through to the Query Client and never read by the session). -/
structure SearchState where
  query : String
  initial_results : Option JVal
  results : Option (List SearchResult)
  completion_suggestions : Option JVal
  current_continuation : Option JVal

/-- A search session together with its environment: `pending` models
the external Query Client (modelled from the spec, §6: `InnerTube.search`
is imported from outside this repository) as an oracle stream of raw
JSON documents, one consumed per invocation; `fetchCount` counts
Query Client invocations. -/
structure Session where
  st : SearchState
  pending : List JVal
  fetchCount : Nat

/-- `Search.__init__` with the Query Client oracle `pages`. -/
def initSession (q : String) (pages : List JVal) : Session :=
  { st := { query := q, initial_results := none, results := none,
            completion_suggestions := none, current_continuation := none },
    pending := pages, fetchCount := 0 }

/-- Truthiness of `self._results` (Python `None` or a list). -/
def pyListTruthy : Option (List SearchResult) → Bool
  | some (_ :: _) => true
  | _ => false

/-- `Search.fetch_query`: invoke the Query Client, then store the
document as `_initial_results` when that field is still falsy.  An
exhausted oracle models a transport failure (propagated unchanged). -/
def fetch_query (s : Session) : Session × Except PyErr JVal :=
  match s.pending with
  | [] => (s, .error .transportError)
  | d :: rest =>
    let s1 : Session := { s with pending := rest, fetchCount := s.fetchCount + 1 }
    if pyOptTruthy s1.st.initial_results then (s1, .ok d)
    else ({ s1 with st := { s1.st with initial_results := some d } }, .ok d)

/-- `Search.fetch_and_parse`: fetch one document and parse it.  The
state already mutated by `fetch_query` is preserved when parsing
raises, as in Python. -/
def fetch_and_parse (s : Session) : Session × Except PyErr (Option (List SearchResult) × Option JVal) :=
  match fetch_query s with
  | (s1, .error e) => (s1, .error e)
  | (s1, .ok raw) =>
    match parse_page raw with
    | .error e => (s1, .error e)
    | .ok pr => (s1, .ok pr)

/-- The `Search.results` property: `if self._results:` is a truthiness
test, so a cached empty (or `None`) result list falls through to a new
fetch; otherwise fetch, store the videos and the continuation, and
return the stored value. -/
def results_prop (s : Session) : Session × Except PyErr (Option (List SearchResult)) :=
  if pyListTruthy s.st.results then (s, .ok s.st.results)
  else
    match fetch_and_parse s with
    | (s1, .error e) => (s1, .error e)
    | (s1, .ok (videos, cont)) =>
      ({ s1 with st := { s1.st with results := videos, current_continuation := cont } },
       .ok videos)

/-- `Search.get_next_results`: raise `IndexError` unless the stored
continuation is truthy; otherwise fetch and parse the next page, extend
`self._results` (an `AttributeError` if it is `None`, a `TypeError` when
the page's videos are `None`), then store the new continuation. -/
def get_next_results (s : Session) : Session × Except PyErr Unit :=
  if pyOptTruthy s.st.current_continuation then
    match fetch_and_parse s with
    | (s1, .error e) => (s1, .error e)
    | (s1, .ok (videos, cont)) =>
      match s1.st.results, videos with
      | none, _ => (s1, .error .attributeError)
      | some _, none => (s1, .error .typeError)
      | some r, some vs =>
        ({ s1 with st := { s1.st with results := some (r ++ vs), current_continuation := cont } },
         .ok ())
  else (s, .error .indexError)

/-- The `Search.completion_suggestions` property: cached value when
truthy, otherwise read `self.results` (possibly fetching) and, when the
returned list is truthy, capture `self._initial_results['refinements']`. -/
def completion_suggestions (s : Session) : Session × Except PyErr (Option JVal) :=
  if pyOptTruthy s.st.completion_suggestions then (s, .ok s.st.completion_suggestions)
  else
    match results_prop s with
    | (s1, .error e) => (s1, .error e)
    | (s1, .ok r) =>
      if pyListTruthy r then
        match s1.st.initial_results with
        | none => (s1, .error .typeError)
        | some d =>
          match d.index "refinements" with
          | .error e => (s1, .error e)
          | .ok refs =>
            ({ s1 with st := { s1.st with completion_suggestions := some refs } },
             .ok (some refs))
      else (s1, .ok s1.st.completion_suggestions)

/-- `n` successive `get_next_results` calls, stopping at the first
raised exception. -/
def iterateNext : Nat → Session → Session × Except PyErr Unit
  | 0, s => (s, .ok ())
  | n + 1, s =>
    match get_next_results s with
    | (s1, .ok _) => iterateNext n s1
    | (s1, .error e) => (s1, .error e)

/-- The extracted results of the page the next `get_next_results` call
would fetch (ghost observer used to state append-only accumulation). -/
def pageVideos (s : Session) : Option (List SearchResult) :=
  match fetch_and_parse s with
  | (_, .ok (some vs, _)) => some vs
  | _ => none

/-- The per-page extracted results of `n` successive successful
`get_next_results` calls, in call order. -/
def collectPages : Nat → Session → List (List SearchResult)
  | 0, _ => []
  | n + 1, s =>
    match get_next_results s with
    | (s1, .ok _) => ((pageVideos s).getD []) :: collectPages n s1
    | _ => []

/-! ## Entry-shape predicates used to state the claims -/

/-- One of the explicit discard keys of the elif chain (branches 2-7). -/
def hasDiscardKey (c : JVal) : Bool :=
  c.hasKey "shelfRenderer" || c.hasKey "radioRenderer" || c.hasKey "playlistRenderer" ||
  c.hasKey "horizontalCardListRenderer" || c.hasKey "didYouMeanRenderer" ||
  c.hasKey "backgroundPromoRenderer"

/-- An entry the loop discards through branches 1-7 (ad marker truthy,
or one of the six discard renderer keys present). -/
def isDiscardEntry (c : JVal) : Bool :=
  match c with
  | .obj fs =>
    match (JVal.obj fs).getKey? "searchPyvRenderer" with
    | some (.obj pfs) =>
      pyTruthy (((JVal.obj pfs).getKey? "ads").getD .null) || hasDiscardKey (.obj fs)
    | some _ => false
    | none => hasDiscardKey (.obj fs)
  | _ => false

/-- An entry matching no known variant: the final `else` branch, which
logs an unrecognized-renderer warning (with the entry keys and the
query text) and continues. -/
def isUnrecognizedEntry (c : JVal) : Bool :=
  match c with
  | .obj fs =>
    (match (JVal.obj fs).getKey? "searchPyvRenderer" with
     | some (.obj pfs) => !pyTruthy (((JVal.obj pfs).getKey? "ads").getD .null)
     | some _ => false
     | none => true)
    && !hasDiscardKey (.obj fs)
    && !(JVal.obj fs).hasKey "videoRenderer"
    && !(JVal.obj fs).hasKey "channelRenderer"
  | _ => false

/-! ## YouTubeMetadata (src/pytube/metadata.py) -/

/-- One iteration of the action loop of
`YouTubeMetadata.__parse_metadata`: four independent `if` blocks, each
assigning one `_metadata` key from a fixed path inside the action; any
missing key or wrong shape raises and aborts construction. -/
def applyAction (m : List (String × JVal)) (action : JVal) : Except PyErr (List (String × JVal)) := do
  let m1 ←
    if action.hasKey "updateViewershipAction" then do
      let u ← action.index "updateViewershipAction"
      let vc ← u.index "viewCount"
      let vr ← vc.index "videoViewCountRenderer"
      let ov ← vr.index "originalViewCount"
      pure (setKey m "viewCount" ov)
    else pure m
  let m2 ←
    if action.hasKey "updateTitleAction" then do
      let u ← action.index "updateTitleAction"
      let t ← u.index "title"
      let runs ← t.index "runs"
      let r0 ← runs.indexNat 0
      let tx ← r0.index "text"
      pure (setKey m1 "title" tx)
    else pure m1
  let m3 ←
    if action.hasKey "updateDateAction" then do
      let u ← action.index "updateDateAction"
      let dt ← u.index "dateText"
      let st ← dt.index "simpleText"
      pure (setKey m2 "relativeDate" st)
    else pure m2
  if action.hasKey "updateDescriptionAction" then do
    let u ← action.index "updateDescriptionAction"
    let de ← u.index "description"
    let runs ← de.index "runs"
    let rs ← asList runs
    let texts ← rs.mapM (fun r => r.index "text")
    let strs ← texts.mapM (fun t =>
      match t with
      | .str s => .ok s
      | _ => .error PyErr.typeError)
    pure (setKey m3 "description" (.str (String.join strs)))
  else pure m3

/-- `YouTubeMetadata.__parse_metadata` run by the constructor:
`metadata.get('actions', [])`, then fold the action loop over the list
starting from the empty `_metadata` dict. -/
def parse_metadata (metadata : JVal) : Except PyErr (List (String × JVal)) :=
  match pyGetD metadata "actions" (.arr []) with
  | .error e => .error e
  | .ok actions =>
    match asList actions with
    | .error e => .error e
    | .ok as => as.foldlM applyAction []

/-- `YouTubeMetadata.get(key, default)`: total dict lookup. -/
def metaGet (m : List (String × JVal)) (k : String) (d : JVal) : JVal :=
  (m.lookup k).getD d

/-- `YouTubeMetadata.__getitem__`: raises `KeyError` on a missing key. -/
def metaGetItem (m : List (String × JVal)) (k : String) : Except PyErr JVal :=
  match m.lookup k with
  | some v => .ok v
  | none => .error (.keyError k)

/-! ## Concrete documents used as witnesses and counterexamples -/

/-- A well-formed video entry with the given id and view-count text. -/
def mkVideoEntry (id vcText : String) : JVal :=
  .obj [("videoRenderer", .obj
    [("videoId", .str id),
     ("title", .obj [("runs", .arr [.obj [("text", .str "Title")]])]),
     ("ownerText", .obj [("runs", .arr [.obj
        [("text", .str "Chan"),
         ("navigationEndpoint", .obj [("commandMetadata", .obj
            [("webCommandMetadata", .obj [("url", .str "/c/chan")])])])]])]),
     ("viewCountText", .obj [("simpleText", .str vcText)])])]

/-- The result `Search._parse_video` extracts from `mkVideoEntry`. -/
def mkVideoResult (id : String) (vc : Int) : SearchResult :=
  .video { videoId := .str id, url := "https://www.youtube.com/watch?v=" ++ id,
           title := .str "Title", channel_name := .str "Chan",
           channel_url := .str "/c/chan", view_count := vc, length := none }

/-- A continuation item carrying the given token. -/
def mkContItem (tok : String) : JVal :=
  .obj [("continuationItemRenderer", .obj
    [("continuationEndpoint", .obj
      [("continuationCommand", .obj [("token", .str tok)])])])]

/-- An item section holding the given entries. -/
def mkItemSection (entries : List JVal) : JVal :=
  .obj [("itemSectionRenderer", .obj [("contents", .arr entries)])]

/-- An initial-page document with the given sections and a refinements
list (the autocomplete suggestions). -/
def mkInitialDoc (sections : List JVal) : JVal :=
  .obj [("contents", .obj [("twoColumnSearchResultsRenderer", .obj
          [("primaryContents", .obj [("sectionListRenderer", .obj
            [("contents", .arr sections)])])])]),
        ("refinements", .arr [.str "sugg one", .str "sugg two"])]

/-- A continuation-page document with the given sections. -/
def mkContDoc (sections : List JVal) : JVal :=
  .obj [("onResponseReceivedCommands", .arr [.obj
    [("appendContinuationItemsAction", .obj
      [("continuationItems", .arr sections)])]])]

def shelfEntry : JVal := .obj [("shelfRenderer", .obj [("x", .null)])]
def adEntry : JVal := .obj [("searchPyvRenderer", .obj [("ads", .arr [.null])])]
def radioEntry : JVal := .obj [("radioRenderer", .null)]
def playlistEntry : JVal := .obj [("playlistRenderer", .null)]
def cardEntry : JVal := .obj [("horizontalCardListRenderer", .null)]
def didYouMeanEntry : JVal := .obj [("didYouMeanRenderer", .null)]
def promoEntry : JVal := .obj [("backgroundPromoRenderer", .null)]
def mysteryEntry : JVal := .obj [("futureRenderer", .null)]

/-- A video entry whose view-count text is non-numeric and not `No`. -/
def badVideoEntry : JVal := mkVideoEntry "bad" "Premieres soon"

/-- An initial page whose only item-section entry is discarded. -/
def emptyPageDoc : JVal := mkInitialDoc [mkItemSection [shelfEntry], mkContItem "tokenA"]

/-- Session whose first page parses to an empty result list. -/
def c1Session : Session := initSession "q" [emptyPageDoc, emptyPageDoc]

def pageOneDoc : JVal := mkInitialDoc [mkItemSection [mkVideoEntry "vidA" "10 views"], mkContItem "tokenA"]
def pageTwoDoc : JVal := mkContDoc [mkItemSection [mkVideoEntry "vidB" "No views"], mkContItem "tokenB"]

/-- An initial page whose continuation token is the empty string. -/
def emptyTokenDoc : JVal := mkInitialDoc [mkItemSection [mkVideoEntry "vidA" "10 views"], mkContItem ""]

def c3Session : Session := initSession "q" [emptyTokenDoc]

/-- A truthy document matching neither envelope path. -/
def malformedDoc : JVal := .obj [("foo", .num 1)]

def c9Session : Session := initSession "q" [malformedDoc]

/-- A two-page session: one video on each page. -/
def c8Session : Session := initSession "q" [pageOneDoc, pageTwoDoc]

/-! ## Basic lemmas about the JSON accessors -/

lemma index_of_getKey (v w : JVal) (k : String) (h : v.getKey? k = some w) :
    v.index k = .ok w := by
  cases v <;> simp_all [JVal.getKey?, JVal.index]

lemma hasKey_of_getKey_none {v : JVal} {k : String} (h : v.getKey? k = none) :
    v.hasKey k = false := by
  simp [JVal.hasKey, h]

/-! ## View-count extraction lemmas -/

lemma pvc_simple (renderer vct t : JVal)
    (h1 : renderer.getKey? "viewCountText" = some vct)
    (h2 : vct.getKey? "runs" = none)
    (h3 : vct.getKey? "simpleText" = some t) :
    parse_view_count renderer = view_count_from_text t := by
  have hi3 := index_of_getKey vct t "simpleText" h3
  simp [parse_view_count, h1, JVal.hasKey, h2, hi3]

lemma pvc_runs (renderer vct r0 : JVal) (rest : List JVal) (t : JVal)
    (h1 : renderer.getKey? "viewCountText" = some vct)
    (h2 : vct.getKey? "runs" = some (.arr (r0 :: rest)))
    (h3 : r0.getKey? "text" = some t) :
    parse_view_count renderer = view_count_from_text t := by
  have hi2 := index_of_getKey vct (.arr (r0 :: rest)) "runs" h2
  have hi3 := index_of_getKey r0 t "text" h3
  simp [parse_view_count, h1, JVal.hasKey, h2, hi2, JVal.indexNat, hi3]

/-- Claim C5: video view-count extraction maps simple text
`"1,234,567 views"` to 1234567, text beginning `No` to 0, an absent
`viewCountText` field to 0, and reads the run-based rich-text form from
the first run's text (equivalently to a simple-text field holding that
text). -/
theorem claim5_view_count_extraction :
    (∀ renderer : JVal,
       renderer.getKey? "viewCountText" = some (.obj [("simpleText", .str "1,234,567 views")]) →
       parse_view_count renderer = .ok 1234567)
    ∧ (∀ renderer : JVal,
       renderer.getKey? "viewCountText" = some (.obj [("simpleText", .str "No views")]) →
       parse_view_count renderer = .ok 0)
    ∧ (∀ renderer : JVal,
       renderer.getKey? "viewCountText" = none →
       parse_view_count renderer = .ok 0)
    ∧ (∀ (renderer vct r0 t : JVal) (rest : List JVal),
       renderer.getKey? "viewCountText" = some vct →
       vct.getKey? "runs" = some (.arr (r0 :: rest)) →
       r0.getKey? "text" = some t →
       parse_view_count renderer =
         parse_view_count (.obj [("viewCountText", .obj [("simpleText", t)])])) := by
  refine ⟨?_, ?_, ?_, ?_⟩
  · intro renderer h
    rw [pvc_simple renderer _ _ h rfl rfl]
    rfl
  · intro renderer h
    rw [pvc_simple renderer _ _ h rfl rfl]
    rfl
  · intro renderer h
    simp [parse_view_count, h]
  · intro renderer vct r0 t rest h1 h2 h3
    rw [pvc_runs renderer vct r0 rest t h1 h2 h3,
        pvc_simple (JVal.obj [("viewCountText", .obj [("simpleText", t)])]) _ t rfl rfl rfl]

def vcSimpleRend : JVal := .obj [("viewCountText", .obj [("simpleText", .str "1,234,567 views")])]
def vcNoRend : JVal := .obj [("viewCountText", .obj [("simpleText", .str "No views")])]
def vcAbsentRend : JVal := .obj [("lengthText", .obj [("simpleText", .str "1:00")])]
def vcRunsRend : JVal := .obj [("viewCountText", .obj [("runs", .arr [.obj [("text", .str "3 watching")]])])]

/-- Witness for C5 at concrete renderers. -/
theorem claim5_witness :
    parse_view_count vcSimpleRend = .ok 1234567 ∧
    parse_view_count vcNoRend = .ok 0 ∧
    parse_view_count vcAbsentRend = .ok 0 ∧
    parse_view_count vcRunsRend =
      parse_view_count (.obj [("viewCountText", .obj [("simpleText", .str "3 watching")])]) :=
  ⟨claim5_view_count_extraction.1 vcSimpleRend rfl,
   claim5_view_count_extraction.2.1 vcNoRend rfl,
   claim5_view_count_extraction.2.2.1 vcAbsentRend rfl,
   claim5_view_count_extraction.2.2.2 vcRunsRend _ _ _ _ rfl rfl rfl⟩

/-! ## Entry-loop lemmas -/

lemma extract_cons_none {c : JVal} {cs : List JVal} (h : classifyEntry c = .ok none) :
    extractResults (c :: cs) = extractResults cs := by
  simp [extractResults, h]

lemma extract_cons_some {c : JVal} {cs : List JVal} {r : SearchResult} {rs : List SearchResult}
    (h1 : classifyEntry c = .ok (some r)) (h2 : extractResults cs = .ok rs) :
    extractResults (c :: cs) = .ok (r :: rs) := by
  simp [extractResults, h1, h2]

lemma extract_append {cs1 cs2 : List JVal} {r1 r2 : List SearchResult}
    (h1 : extractResults cs1 = .ok r1) (h2 : extractResults cs2 = .ok r2) :
    extractResults (cs1 ++ cs2) = .ok (r1 ++ r2) := by
  induction cs1 generalizing r1 with
  | nil =>
    simp only [extractResults] at h1
    cases h1
    simpa using h2
  | cons d ds ih =>
    simp only [extractResults] at h1
    cases hd : classifyEntry d with
    | error e => rw [hd] at h1; cases h1
    | ok o =>
      cases o with
      | none =>
        rw [hd] at h1
        simp only [List.cons_append, extractResults, hd, List.append_eq]
        exact ih h1
      | some r =>
        rw [hd] at h1
        cases he : extractResults ds with
        | error e => rw [he] at h1; cases h1
        | ok rs =>
          rw [he] at h1
          cases h1
          simp only [List.cons_append, extractResults, hd, List.append_eq]
          rw [ih he]

lemma extract_middle_skip (c : JVal) (cs1 cs2 : List JVal) (h : classifyEntry c = .ok none) :
    extractResults (cs1 ++ c :: cs2) = extractResults (cs1 ++ cs2) := by
  induction cs1 with
  | nil => simpa using extract_cons_none h
  | cons d ds ih =>
    simp only [List.cons_append, extractResults, List.append_eq]
    rw [ih]

lemma extract_abort (c : JVal) (cs1 cs2 : List JVal) (r1 : List SearchResult) (e : PyErr)
    (h1 : extractResults cs1 = .ok r1) (h2 : classifyEntry c = .error e) :
    extractResults (cs1 ++ c :: cs2) = .error e := by
  induction cs1 generalizing r1 with
  | nil => simp [extractResults, h2]
  | cons d ds ih =>
    simp only [extractResults] at h1
    cases hd : classifyEntry d with
    | error e2 => rw [hd] at h1; cases h1
    | ok o =>
      cases o with
      | none =>
        rw [hd] at h1
        simp only [List.cons_append, extractResults, hd, List.append_eq]
        exact ih _ h1
      | some r =>
        rw [hd] at h1
        cases he : extractResults ds with
        | error e2 => rw [he] at h1; cases h1
        | ok rs =>
          simp only [List.cons_append, extractResults, hd, List.append_eq]
          rw [ih _ he]

lemma classify_of_discard {c : JVal} (h : isDiscardEntry c = true) :
    classifyEntry c = .ok none := by
  cases c with
  | obj fs =>
    unfold classifyEntry
    cases hp : fs.lookup "searchPyvRenderer" with
    | none =>
      have h' : hasDiscardKey (.obj fs) = true := by
        unfold isDiscardEntry at h
        simpa [JVal.getKey?, hp] using h
      simp only [pyGetD, hp, Option.getD]
      cases hk1 : (JVal.obj fs).hasKey "shelfRenderer" <;>
      cases hk2 : (JVal.obj fs).hasKey "radioRenderer" <;>
      cases hk3 : (JVal.obj fs).hasKey "playlistRenderer" <;>
      cases hk4 : (JVal.obj fs).hasKey "horizontalCardListRenderer" <;>
      cases hk5 : (JVal.obj fs).hasKey "didYouMeanRenderer" <;>
      cases hk6 : (JVal.obj fs).hasKey "backgroundPromoRenderer" <;>
      simp_all [hasDiscardKey, pyGetD, pyTruthy, List.lookup]
    | some pyv =>
      cases pyv with
      | obj pfs =>
        have h' : pyTruthy ((pfs.lookup "ads").getD .null) = true ∨
            hasDiscardKey (.obj fs) = true := by
          unfold isDiscardEntry at h
          simpa [JVal.getKey?, hp, Bool.or_eq_true] using h
        simp only [pyGetD, hp, Option.getD]
        rcases h' with h' | h'
        · cases hl : List.lookup "ads" pfs with
          | none => rw [hl] at h'; simp [Option.getD, pyTruthy] at h'
          | some av =>
            rw [hl] at h'
            simp only [Option.getD] at h'
            simp [pyGetD, hl, Option.getD, h']
        · cases hads : pyTruthy ((pfs.lookup "ads").getD .null) <;>
          cases hk1 : (JVal.obj fs).hasKey "shelfRenderer" <;>
          cases hk2 : (JVal.obj fs).hasKey "radioRenderer" <;>
          cases hk3 : (JVal.obj fs).hasKey "playlistRenderer" <;>
          cases hk4 : (JVal.obj fs).hasKey "horizontalCardListRenderer" <;>
          cases hk5 : (JVal.obj fs).hasKey "didYouMeanRenderer" <;>
          cases hk6 : (JVal.obj fs).hasKey "backgroundPromoRenderer" <;>
          simp_all [hasDiscardKey, pyGetD]
      | null => simp [isDiscardEntry, JVal.getKey?, hp] at h
      | bool b => simp [isDiscardEntry, JVal.getKey?, hp] at h
      | num n => simp [isDiscardEntry, JVal.getKey?, hp] at h
      | str s => simp [isDiscardEntry, JVal.getKey?, hp] at h
      | arr xs => simp [isDiscardEntry, JVal.getKey?, hp] at h
  | null => simp [isDiscardEntry] at h
  | bool b => simp [isDiscardEntry] at h
  | num n => simp [isDiscardEntry] at h
  | str s => simp [isDiscardEntry] at h
  | arr xs => simp [isDiscardEntry] at h

lemma classify_of_unrecognized {c : JVal} (h : isUnrecognizedEntry c = true) :
    classifyEntry c = .ok none := by
  cases c with
  | obj fs =>
    unfold classifyEntry
    cases hp : fs.lookup "searchPyvRenderer" with
    | none =>
      simp only [isUnrecognizedEntry, JVal.getKey?, hp, hasDiscardKey, Bool.and_eq_true,
        Bool.not_eq_true', Bool.or_eq_false_iff] at h
      obtain ⟨⟨⟨-, ⟨⟨⟨⟨⟨h1, h2⟩, h3⟩, h4⟩, h5⟩, h6⟩⟩, h7⟩, h8⟩ := h
      simp [pyGetD, hp, Option.getD, List.lookup, pyTruthy, h1, h2, h3, h4, h5, h6, h7, h8]
    | some pyv =>
      cases pyv with
      | obj pfs =>
        simp only [isUnrecognizedEntry, JVal.getKey?, hp, hasDiscardKey, Bool.and_eq_true,
          Bool.not_eq_true', Bool.or_eq_false_iff] at h
        obtain ⟨⟨⟨h0, ⟨⟨⟨⟨⟨h1, h2⟩, h3⟩, h4⟩, h5⟩, h6⟩⟩, h7⟩, h8⟩ := h
        cases hl : List.lookup "ads" pfs with
        | none =>
          simp [pyGetD, hp, hl, Option.getD, pyTruthy, h1, h2, h3, h4, h5, h6, h7, h8]
        | some av =>
          rw [hl] at h0
          simp only [Option.getD] at h0
          simp [pyGetD, hp, hl, Option.getD, h0, h1, h2, h3, h4, h5, h6, h7, h8]
      | null => simp [isUnrecognizedEntry, JVal.getKey?, hp] at h
      | bool b => simp [isUnrecognizedEntry, JVal.getKey?, hp] at h
      | num n => simp [isUnrecognizedEntry, JVal.getKey?, hp] at h
      | str s => simp [isUnrecognizedEntry, JVal.getKey?, hp] at h
      | arr xs => simp [isUnrecognizedEntry, JVal.getKey?, hp] at h
  | null => simp [isUnrecognizedEntry] at h
  | bool b => simp [isUnrecognizedEntry] at h
  | num n => simp [isUnrecognizedEntry] at h
  | str s => simp [isUnrecognizedEntry] at h
  | arr xs => simp [isUnrecognizedEntry] at h

lemma extract_all_discard {cs : List JVal} (h : ∀ c ∈ cs, isDiscardEntry c = true) :
    extractResults cs = .ok [] := by
  induction cs with
  | nil => rfl
  | cons d ds ih =>
    rw [extract_cons_none (classify_of_discard (h d (List.mem_cons_self d ds)))]
    exact ih (fun c hc => h c (List.mem_cons_of_mem d hc))

/-- Claim C4 counterexample: a recognized video entry whose view-count
text is non-numeric and non-`No` makes the whole page-level parse abort
with `ValueError`; the following (perfectly parseable) entry is never
reached, so a `FieldExtractionFailure` is not locally contained. -/
theorem claim4_counterexample :
    classifyEntry badVideoEntry = .error .valueError ∧
    extractResults [badVideoEntry, mkVideoEntry "vidA" "10 views"] = .error .valueError ∧
    extractResults [mkVideoEntry "vidA" "10 views"] = .ok [mkVideoResult "vidA" 10] :=
  ⟨rfl, rfl, rfl⟩

/-- Claim C4 amended: an entry matching no known variant
(UnrecognizedVariant) is locally contained — the remaining entries still
parse and the page result is unchanged — whereas a per-entry extraction
failure (such as a video entry with non-numeric, non-`No` view-count
text) aborts the page-level parse with that error. -/
theorem claim4_unrecognized_contained :
    (∀ (c : JVal) (cs1 cs2 : List JVal), isUnrecognizedEntry c = true →
       extractResults (cs1 ++ c :: cs2) = extractResults (cs1 ++ cs2))
    ∧ (∀ (c : JVal) (cs1 cs2 : List JVal) (r1 : List SearchResult) (e : PyErr),
       extractResults cs1 = .ok r1 → classifyEntry c = .error e →
       extractResults (cs1 ++ c :: cs2) = .error e) :=
  ⟨fun c cs1 cs2 h => extract_middle_skip c cs1 cs2 (classify_of_unrecognized h),
   fun c cs1 cs2 r1 e h1 h2 => extract_abort c cs1 cs2 r1 e h1 h2⟩

/-- Witness for the amended C4 at concrete pages. -/
theorem claim4_witness :
    extractResults ([adEntry] ++ mysteryEntry :: [mkVideoEntry "vidA" "10 views"])
      = extractResults ([adEntry] ++ [mkVideoEntry "vidA" "10 views"]) ∧
    extractResults ([mkVideoEntry "vidA" "10 views"] ++ badVideoEntry :: [mkVideoEntry "vidB" "No views"])
      = .error .valueError :=
  ⟨claim4_unrecognized_contained.1 mysteryEntry [adEntry] [mkVideoEntry "vidA" "10 views"] rfl,
   claim4_unrecognized_contained.2 badVideoEntry [mkVideoEntry "vidA" "10 views"]
     [mkVideoEntry "vidB" "No views"] [mkVideoResult "vidA" 10] .valueError rfl rfl⟩

/-! ## Section-scan lemmas and claims C6, C7 -/

lemma asList_arr (xs : List JVal) : asList (.arr xs) = .ok xs := rfl

lemma scanAux_snd_of_no_key {secs : List JVal}
    (h : ∀ x ∈ secs, x.hasKey "continuationItemRenderer" = false) :
    ∀ acc : Option JVal × Option JVal, (scanSectionsAux acc secs).2 = acc.2 := by
  induction secs with
  | nil => intro acc; rfl
  | cons s rest ih =>
    intro acc
    have hs := h s (List.mem_cons_self s rest)
    have ih' := ih (fun x hx => h x (List.mem_cons_of_mem s hx))
    simp only [scanSectionsAux]
    rw [ih']
    simp [hs]

lemma scanAux_fst_of_no_key {secs : List JVal}
    (h : ∀ x ∈ secs, x.hasKey "itemSectionRenderer" = false) :
    ∀ acc : Option JVal × Option JVal, (scanSectionsAux acc secs).1 = acc.1 := by
  induction secs with
  | nil => intro acc; rfl
  | cons s rest ih =>
    intro acc
    have hs := h s (List.mem_cons_self s rest)
    have ih' := ih (fun x hx => h x (List.mem_cons_of_mem s hx))
    simp only [scanSectionsAux]
    rw [ih']
    simp [hs]

/-- Claim C6: for every successfully parsed page, when no section
carries a continuation item the returned next token is `none`, and when
no section carries an item section the returned result list is `none`
(not the empty list), so the two cases stay distinguishable. -/
theorem claim6_absent_sections (raw sj : JVal) (secs : List JVal)
    (res : Option (List SearchResult)) (tok : Option JVal)
    (hl : locateSections raw = .ok sj) (ha : asList sj = .ok secs)
    (hp : parse_page raw = .ok (res, tok)) :
    ((∀ x ∈ secs, x.hasKey "continuationItemRenderer" = false) → tok = none) ∧
    ((∀ x ∈ secs, x.hasKey "itemSectionRenderer" = false) → res = none) := by
  simp only [parse_page, hl, ha] at hp
  constructor
  · intro hno
    have h2 : (scanSections secs).2 = none := scanAux_snd_of_no_key hno (none, none)
    rw [h2] at hp
    simp only [nextTokenOf] at hp
    cases hpr : pageResults (scanSections secs).1 with
    | error e => rw [hpr] at hp; cases hp
    | ok r =>
      rw [hpr] at hp
      simp only [Except.ok.injEq, Prod.mk.injEq] at hp
      exact hp.2.symm
  · intro hno
    have h1 : (scanSections secs).1 = none := scanAux_fst_of_no_key hno (none, none)
    rw [h1] at hp
    cases hnt : nextTokenOf (scanSections secs).2 with
    | error e => rw [hnt] at hp; cases hp
    | ok t =>
      rw [hnt] at hp
      simp only [pageResults] at hp
      simp only [Except.ok.injEq, Prod.mk.injEq] at hp
      exact hp.1.symm

/-- A continuation page whose only section carries neither an item
section nor a continuation item. -/
def bareSectionDoc : JVal := mkContDoc [.obj [("messageRenderer", .null)]]

/-- Witness for C6: on `bareSectionDoc` both the token and the result
list come out `none`. -/
theorem claim6_witness :
    (none : Option JVal) = none ∧ (none : Option (List SearchResult)) = none :=
  ⟨(claim6_absent_sections bareSectionDoc (.arr [.obj [("messageRenderer", .null)]])
      [.obj [("messageRenderer", .null)]] none none rfl rfl rfl).1 (by decide),
   (claim6_absent_sections bareSectionDoc (.arr [.obj [("messageRenderer", .null)]])
      [.obj [("messageRenderer", .null)]] none none rfl rfl rfl).2 (by decide)⟩

/-- Claim C7: a page whose item-section entries are all discard variants
parses to an empty (not `none`) result list, and the next token is
exactly the one derived from the continuation item alone
(`nextTokenOf` of the scanned continuation renderer, a function that
never looks at the item section). -/
theorem claim7_all_discarded (raw sj ir : JVal) (secs cs : List JVal) (tok : Option JVal)
    (hl : locateSections raw = .ok sj) (ha : asList sj = .ok secs)
    (hscan : (scanSections secs).1 = some ir) (htr : pyTruthy ir = true)
    (hc : ir.index "contents" = .ok (.arr cs))
    (hdisc : ∀ c ∈ cs, isDiscardEntry c = true)
    (hnt : nextTokenOf (scanSections secs).2 = .ok tok) :
    parse_page raw = .ok (some [], tok) := by
  simp only [parse_page, hl, ha, hnt, hscan, pageResults, htr, if_true, hc, asList_arr,
    extract_all_discard hdisc]

/-- A page whose item section holds one entry of each discard variant. -/
def allDiscardDoc : JVal :=
  mkInitialDoc [mkItemSection [shelfEntry, adEntry, radioEntry, playlistEntry,
    cardEntry, didYouMeanEntry, promoEntry], mkContItem "tokenZ"]

/-- Witness for C7 on `allDiscardDoc`. -/
theorem claim7_witness :
    parse_page allDiscardDoc = .ok (some [], some (.str "tokenZ")) :=
  claim7_all_discarded allDiscardDoc
    (.arr [mkItemSection [shelfEntry, adEntry, radioEntry, playlistEntry,
       cardEntry, didYouMeanEntry, promoEntry], mkContItem "tokenZ"])
    (.obj [("contents", .arr [shelfEntry, adEntry, radioEntry, playlistEntry,
       cardEntry, didYouMeanEntry, promoEntry])])
    [mkItemSection [shelfEntry, adEntry, radioEntry, playlistEntry,
       cardEntry, didYouMeanEntry, promoEntry], mkContItem "tokenZ"]
    [shelfEntry, adEntry, radioEntry, playlistEntry, cardEntry, didYouMeanEntry, promoEntry]
    (some (.str "tokenZ")) rfl rfl rfl rfl rfl (by decide) rfl

/-! ## Session lemmas -/

lemma fetch_query_st (s : Session) :
    (fetch_query s).1.st.results = s.st.results ∧
    (fetch_query s).1.st.current_continuation = s.st.current_continuation ∧
    (fetch_query s).1.st.completion_suggestions = s.st.completion_suggestions ∧
    (fetch_query s).1.st.query = s.st.query ∧
    (pyOptTruthy s.st.initial_results = true →
      (fetch_query s).1.st.initial_results = s.st.initial_results) := by
  unfold fetch_query
  cases hp : s.pending with
  | nil => simp
  | cons d rest => cases hi : pyOptTruthy s.st.initial_results <;> simp [hi]

lemma fetch_and_parse_fst (s : Session) : (fetch_and_parse s).1 = (fetch_query s).1 := by
  unfold fetch_and_parse
  cases hq : fetch_query s with
  | mk s1 r =>
    cases r with
    | error e => rfl
    | ok raw => cases hpp : parse_page raw <;> simp [hpp]

lemma fap_st (s : Session) :
    (fetch_and_parse s).1.st.results = s.st.results ∧
    (fetch_and_parse s).1.st.current_continuation = s.st.current_continuation ∧
    (fetch_and_parse s).1.st.completion_suggestions = s.st.completion_suggestions ∧
    (fetch_and_parse s).1.st.query = s.st.query ∧
    (pyOptTruthy s.st.initial_results = true →
      (fetch_and_parse s).1.st.initial_results = s.st.initial_results) := by
  rw [fetch_and_parse_fst]
  exact fetch_query_st s

lemma fap_fetchCount_cons (s : Session) (d : JVal) (rest : List JVal)
    (hp : s.pending = d :: rest) :
    (fetch_and_parse s).1.fetchCount = s.fetchCount + 1 := by
  rw [fetch_and_parse_fst]
  unfold fetch_query
  simp only [hp]
  cases hi : pyOptTruthy s.st.initial_results <;> simp [hi]

lemma fap_transport (s : Session) (hp : s.pending = []) :
    fetch_and_parse s = (s, .error .transportError) := by
  unfold fetch_and_parse fetch_query
  simp [hp]

lemma gnr_step {s s' : Session} (h : get_next_results s = (s', .ok ())) :
    ∃ r vs, s.st.results = some r ∧ pageVideos s = some vs ∧
      s'.st.results = some (r ++ vs) ∧
      s'.st.completion_suggestions = s.st.completion_suggestions ∧
      s'.st.query = s.st.query ∧
      (pyOptTruthy s.st.initial_results = true →
        s'.st.initial_results = s.st.initial_results) := by
  unfold get_next_results at h
  cases hcc : pyOptTruthy s.st.current_continuation with
  | false => rw [hcc] at h; simp at h
  | true =>
    rw [hcc] at h
    simp only [if_true] at h
    cases hfap : fetch_and_parse s with
    | mk s1 pr =>
      rw [hfap] at h
      have hfst : (fetch_and_parse s).1 = s1 := by rw [hfap]
      have hst := fap_st s
      rw [hfst] at hst
      cases pr with
      | error e => simp at h
      | ok p =>
        obtain ⟨videos, cont⟩ := p
        dsimp only at h
        cases hr : s1.st.results with
        | none => rw [hr] at h; simp at h
        | some r =>
          rw [hr] at h
          cases videos with
          | none => simp at h
          | some vs =>
            simp only [Prod.mk.injEq] at h
            obtain ⟨hs', -⟩ := h
            subst hs'
            refine ⟨r, vs, ?_, ?_, rfl, hst.2.2.1, hst.2.2.2.1, hst.2.2.2.2⟩
            · rw [← hst.1]; exact hr
            · simp [pageVideos, hfap]

lemma iterate_ok : ∀ (n : Nat) (s s' : Session) (r0 : List SearchResult),
    iterateNext n s = (s', .ok ()) → s.st.results = some r0 →
    s'.st.results = some (r0 ++ (collectPages n s).flatten) ∧
    s'.st.completion_suggestions = s.st.completion_suggestions ∧
    s'.st.query = s.st.query ∧
    (pyOptTruthy s.st.initial_results = true →
      s'.st.initial_results = s.st.initial_results) := by
  intro n
  induction n with
  | zero =>
    intro s s' r0 h hr
    simp only [iterateNext, Prod.mk.injEq] at h
    obtain ⟨rfl, -⟩ := h
    simp [collectPages, hr]
  | succ n ih =>
    intro s s' r0 h hr
    simp only [iterateNext] at h
    cases hg : get_next_results s with
    | mk s1 res =>
      rw [hg] at h
      cases res with
      | error e => simp at h
      | ok u =>
        cases u
        obtain ⟨r, vs, hr0, hpv, hres1, hsug1, hq1, hinit1⟩ := gnr_step hg
        rw [hr] at hr0
        have hrr : r = r0 := (Option.some.inj hr0).symm
        subst hrr
        obtain ⟨h1, h2, h3, h4⟩ := ih s1 s' (r ++ vs) h hres1
        have hcp : collectPages (n + 1) s = vs :: collectPages n s1 := by
          simp only [collectPages, hg, hpv, Option.getD]
        refine ⟨?_, ?_, ?_, ?_⟩
        · rw [h1, hcp]
          simp [List.flatten_cons, List.append_assoc]
        · rw [h2, hsug1]
        · rw [h3, hq1]
        · intro hi
          have hi1 := hinit1 hi
          have hi2 : pyOptTruthy s1.st.initial_results = true := by rw [hi1]; exact hi
          rw [h4 hi2, hi1]

/-! ## Claims C1, C2, C3, C9 -/

/-- Claim C1 is violated by the code (code bug): `if self._results:` is
a truthiness test, so on a session whose first fetch parses to an empty
result list the second `results` access performs a second Query Client
invocation instead of returning the cached empty list.  Both calls
succeed with the empty list, yet the fetch counter reaches 2. -/
theorem claim1_empty_first_page_refetches :
    (results_prop c1Session).2 = .ok (some []) ∧
    (results_prop c1Session).1.fetchCount = 1 ∧
    (results_prop (results_prop c1Session).1).2 = .ok (some []) ∧
    (results_prop (results_prop c1Session).1).1.fetchCount = 2 :=
  ⟨rfl, rfl, rfl, rfl⟩

/-- Claim C2: after `n` successive successful `get_next_results` calls
the accumulated list equals the prior list followed by the pages'
extracted results concatenated in call order; and within a page the
entry loop is an order-preserving filter: it distributes over
concatenation, drops exactly the discarded entries, and conses each
extracted result in entry order. -/
theorem claim2_append_only_ordering :
    (∀ (n : Nat) (s s' : Session) (r0 : List SearchResult),
       s.st.results = some r0 → iterateNext n s = (s', .ok ()) →
       s'.st.results = some (r0 ++ (collectPages n s).flatten))
    ∧ (∀ (cs1 cs2 : List JVal) (r1 r2 : List SearchResult),
       extractResults cs1 = .ok r1 → extractResults cs2 = .ok r2 →
       extractResults (cs1 ++ cs2) = .ok (r1 ++ r2))
    ∧ (∀ (c : JVal) (cs : List JVal), classifyEntry c = .ok none →
       extractResults (c :: cs) = extractResults cs)
    ∧ (∀ (c : JVal) (cs : List JVal) (r : SearchResult) (rs : List SearchResult),
       classifyEntry c = .ok (some r) → extractResults cs = .ok rs →
       extractResults (c :: cs) = .ok (r :: rs)) :=
  ⟨fun n s s' r0 hr h => (iterate_ok n s s' r0 h hr).1,
   fun _ _ _ _ h1 h2 => extract_append h1 h2,
   fun _ _ h => extract_cons_none h,
   fun _ _ _ _ h1 h2 => extract_cons_some h1 h2⟩

/-- Witness for C2: one `get_next_results` call on the two-page session,
plus the entry-loop facts at concrete pages. -/
theorem claim2_witness :
    (iterateNext 1 (results_prop c8Session).1).1.st.results
      = some ([mkVideoResult "vidA" 10] ++ (collectPages 1 (results_prop c8Session).1).flatten) ∧
    extractResults ([mkVideoEntry "vidA" "10 views"] ++ [shelfEntry, mkVideoEntry "vidB" "No views"])
      = .ok ([mkVideoResult "vidA" 10] ++ [mkVideoResult "vidB" 0]) ∧
    extractResults (shelfEntry :: [mkVideoEntry "vidB" "No views"])
      = extractResults [mkVideoEntry "vidB" "No views"] ∧
    extractResults (mkVideoEntry "vidA" "10 views" :: [shelfEntry])
      = .ok [mkVideoResult "vidA" 10] :=
  ⟨claim2_append_only_ordering.1 1 (results_prop c8Session).1 _ [mkVideoResult "vidA" 10] rfl rfl,
   claim2_append_only_ordering.2.1 [mkVideoEntry "vidA" "10 views"]
     [shelfEntry, mkVideoEntry "vidB" "No views"] [mkVideoResult "vidA" 10]
     [mkVideoResult "vidB" 0] rfl rfl,
   claim2_append_only_ordering.2.2.1 shelfEntry [mkVideoEntry "vidB" "No views"] rfl,
   claim2_append_only_ordering.2.2.2 (mkVideoEntry "vidA" "10 views") [shelfEntry]
     (mkVideoResult "vidA" 10) [] rfl rfl⟩

/-- Claim C3 counterexample: a reachable session (one successful
`results` access) whose stored continuation token is the empty string —
neither a fresh session nor a `None` token — still makes
`get_next_results` raise `IndexError`, because the guard is a truthiness
test.  So the error does not occur in exactly the two claimed
situations. -/
theorem claim3_counterexample :
    (results_prop c3Session).2 = .ok (some [mkVideoResult "vidA" 10]) ∧
    (results_prop c3Session).1.st.current_continuation = some (.str "") ∧
    (results_prop c3Session).1.st.current_continuation ≠ none ∧
    (results_prop c3Session).1.st.results ≠ none ∧
    get_next_results (results_prop c3Session).1
      = ((results_prop c3Session).1, .error .indexError) := by
  refine ⟨rfl, rfl, ?_, ?_, rfl⟩
  · rw [show (results_prop c3Session).1.st.current_continuation = some (.str "") from rfl]
    simp
  · rw [show (results_prop c3Session).1.st.results
        = some [mkVideoResult "vidA" 10] from rfl]
    simp

lemma gnr_fetchCount_cons {s : Session}
    (hcc : pyOptTruthy s.st.current_continuation = true)
    {d : JVal} {rest : List JVal} (hp : s.pending = d :: rest) :
    (get_next_results s).1.fetchCount = s.fetchCount + 1 := by
  unfold get_next_results
  rw [hcc]
  simp only [if_true]
  cases hfap : fetch_and_parse s with
  | mk s1 pr =>
    have h1 : s1.fetchCount = s.fetchCount + 1 := by
      have h2 := fap_fetchCount_cons s d rest hp
      rw [hfap] at h2
      exact h2
    cases pr with
    | error e => simp [h1]
    | ok p =>
      obtain ⟨videos, cont⟩ := p
      cases hres : s1.st.results <;> cases videos <;> simp [h1, hres]

lemma gnr_nil {s : Session} (hcc : pyOptTruthy s.st.current_continuation = true)
    (hp : s.pending = []) :
    get_next_results s = (s, .error .transportError) := by
  unfold get_next_results
  rw [hcc]
  simp [fap_transport s hp]

/-- Claim C3 amended: `get_next_results` fails with `IndexError`,
performing no fetch and no state change, exactly when the stored
continuation is not truthy — that is, on a fresh session (token unset),
after the last page (token `None`), or when the token is a falsy value
such as the empty string. -/
theorem claim3_amended (s : Session) :
    (get_next_results s = (s, .error .indexError) ∧
      (get_next_results s).1.fetchCount = s.fetchCount)
    ↔ pyOptTruthy s.st.current_continuation = false := by
  constructor
  · rintro ⟨h1, h2⟩
    by_contra hc
    have hcc : pyOptTruthy s.st.current_continuation = true := by
      cases hb : pyOptTruthy s.st.current_continuation
      · exact absurd hb hc
      · rfl
    cases hp : s.pending with
    | nil =>
      rw [gnr_nil hcc hp] at h1
      simp at h1
    | cons d rest =>
      have h3 := gnr_fetchCount_cons hcc hp
      rw [h2] at h3
      omega
  · intro h
    constructor
    · unfold get_next_results
      rw [h]
      simp
    · unfold get_next_results
      rw [h]
      simp

/-- Witness for the amended C3 on a fresh session. -/
theorem claim3_witness :
    get_next_results (initSession "w" []) = (initSession "w" [], .error .indexError) ∧
    (get_next_results (initSession "w" [])).1.fetchCount = (initSession "w" []).fetchCount :=
  (claim3_amended (initSession "w" [])).mpr rfl

/-- Claim C9 counterexample: on a fresh session, a first fetch returning
a document matching neither envelope path fails — but `fetch_query` has
already stored the malformed document in `_initial_results`, so the
stored-first-page-document field is mutated by the failing call. -/
theorem claim9_counterexample :
    (results_prop c9Session).2 = .error (.keyError "onResponseReceivedCommands") ∧
    c9Session.st.initial_results = none ∧
    (results_prop c9Session).1.st.initial_results = some malformedDoc :=
  ⟨rfl, rfl, rfl⟩

/-- Claim C9 amended: a failing fetch (in particular a MalformedEnvelope
one) leaves the accumulated results, the continuation token, the
suggestions and the query unchanged; the stored first-page document is
also unchanged whenever it was already (truthily) set — only a session
whose first-page slot was still unset/falsy can have it set to the
fetched document before the failure surfaces. -/
theorem claim9_amended (s s' : Session) (e : PyErr) :
    (results_prop s = (s', .error e) →
       s'.st.results = s.st.results ∧
       s'.st.current_continuation = s.st.current_continuation ∧
       s'.st.completion_suggestions = s.st.completion_suggestions ∧
       s'.st.query = s.st.query ∧
       (pyOptTruthy s.st.initial_results = true →
         s'.st.initial_results = s.st.initial_results))
    ∧ (get_next_results s = (s', .error e) →
       s'.st.results = s.st.results ∧
       s'.st.current_continuation = s.st.current_continuation ∧
       s'.st.completion_suggestions = s.st.completion_suggestions ∧
       s'.st.query = s.st.query ∧
       (pyOptTruthy s.st.initial_results = true →
         s'.st.initial_results = s.st.initial_results)) := by
  constructor
  · intro h
    unfold results_prop at h
    cases hcache : pyListTruthy s.st.results with
    | true => rw [hcache] at h; simp at h
    | false =>
      rw [hcache] at h
      simp only [Bool.false_eq_true, if_false] at h
      cases hfap : fetch_and_parse s with
      | mk s1 pr =>
        rw [hfap] at h
        have hst := fap_st s
        rw [show (fetch_and_parse s).1 = s1 from by rw [hfap]] at hst
        cases pr with
        | error e2 =>
          simp only [Prod.mk.injEq] at h
          obtain ⟨rfl, -⟩ := h
          exact hst
        | ok p =>
          obtain ⟨videos, cont⟩ := p
          simp at h
  · intro h
    unfold get_next_results at h
    cases hcc : pyOptTruthy s.st.current_continuation with
    | false =>
      rw [hcc] at h
      simp only [Bool.false_eq_true, if_false, Prod.mk.injEq] at h
      obtain ⟨rfl, -⟩ := h
      exact ⟨rfl, rfl, rfl, rfl, fun _ => rfl⟩
    | true =>
      rw [hcc] at h
      simp only [if_true] at h
      cases hfap : fetch_and_parse s with
      | mk s1 pr =>
        rw [hfap] at h
        have hst := fap_st s
        rw [show (fetch_and_parse s).1 = s1 from by rw [hfap]] at hst
        cases pr with
        | error e2 =>
          simp only [Prod.mk.injEq] at h
          obtain ⟨rfl, -⟩ := h
          exact hst
        | ok p =>
          obtain ⟨videos, cont⟩ := p
          dsimp only at h
          cases hres : s1.st.results with
          | none =>
            rw [hres] at h
            simp only [Prod.mk.injEq] at h
            obtain ⟨rfl, -⟩ := h
            exact hst
          | some r =>
            rw [hres] at h
            cases videos with
            | none =>
              simp only [Prod.mk.injEq] at h
              obtain ⟨rfl, -⟩ := h
              exact hst
            | some vs => simp at h

/-- Witness for the amended C9 on the malformed-envelope session. -/
theorem claim9_witness :
    (results_prop c9Session).1.st.results = c9Session.st.results ∧
    (results_prop c9Session).1.st.current_continuation = c9Session.st.current_continuation ∧
    (results_prop c9Session).1.st.completion_suggestions = c9Session.st.completion_suggestions ∧
    (results_prop c9Session).1.st.query = c9Session.st.query ∧
    (pyOptTruthy c9Session.st.initial_results = true →
      (results_prop c9Session).1.st.initial_results = c9Session.st.initial_results) :=
  (claim9_amended c9Session (results_prop c9Session).1
    (.keyError "onResponseReceivedCommands")).1 rfl

/-! ## Claim C8: suggestions come from the first page only -/

lemma sugg_value {s : Session} {d : JVal} {x : SearchResult} {xs : List SearchResult} {refs : JVal}
    (hsugg : s.st.completion_suggestions = none)
    (hres : s.st.results = some (x :: xs))
    (hinit : s.st.initial_results = some d)
    (hrefs : d.index "refinements" = .ok refs) :
    (completion_suggestions s).2 = .ok (some refs) := by
  have hcache : results_prop s = (s, .ok s.st.results) := by
    unfold results_prop
    rw [hres]
    simp [pyListTruthy]
  simp only [completion_suggestions, hsugg, pyOptTruthy, Bool.false_eq_true, if_false,
    hcache, hres, pyListTruthy, if_true, hinit, hrefs]

/-- Claim C8: from a state reached by a successful first fetch (stored
first-page document truthy, nonempty result list, suggestions not yet
cached, a refinements list present), any number of successful
`get_next_results` calls leaves the stored first-page document
untouched, and `completion_suggestions` returns the same first-page
refinements before and after. -/
theorem claim8_suggestions_stable (n : Nat) (s s' : Session) (d refs : JVal)
    (x : SearchResult) (xs : List SearchResult)
    (hinit : s.st.initial_results = some d) (htr : pyTruthy d = true)
    (hres : s.st.results = some (x :: xs))
    (hsugg : s.st.completion_suggestions = none)
    (hrefs : d.index "refinements" = .ok refs)
    (hit : iterateNext n s = (s', .ok ())) :
    s'.st.initial_results = some d ∧
    (completion_suggestions s).2 = .ok (some refs) ∧
    (completion_suggestions s').2 = .ok (some refs) := by
  have htru : pyOptTruthy s.st.initial_results = true := by
    rw [hinit]
    exact htr
  obtain ⟨h1, h2, h3, h4⟩ := iterate_ok n s s' (x :: xs) hit hres
  have hinit' : s'.st.initial_results = some d := by rw [h4 htru, hinit]
  refine ⟨hinit', sugg_value hsugg hres hinit hrefs, ?_⟩
  have hres' : s'.st.results = some (x :: (xs ++ (collectPages n s).flatten)) := by
    rw [h1]
    simp
  have hsugg' : s'.st.completion_suggestions = none := by rw [h2, hsugg]
  exact sugg_value hsugg' hres' hinit' hrefs

/-- Witness for C8: one continuation fetch on the two-page session. -/
theorem claim8_witness :
    (iterateNext 1 (results_prop c8Session).1).1.st.initial_results = some pageOneDoc ∧
    (completion_suggestions (results_prop c8Session).1).2
      = .ok (some (.arr [.str "sugg one", .str "sugg two"])) ∧
    (completion_suggestions (iterateNext 1 (results_prop c8Session).1).1).2
      = .ok (some (.arr [.str "sugg one", .str "sugg two"])) :=
  claim8_suggestions_stable 1 (results_prop c8Session).1
    (iterateNext 1 (results_prop c8Session).1).1 pageOneDoc
    (.arr [.str "sugg one", .str "sugg two"]) (mkVideoResult "vidA" 10) []
    rfl rfl rfl rfl rfl rfl

/-! ## Claim C10: YouTubeMetadata -/

/-- Claim C10 counterexample: constructing `YouTubeMetadata` over a dict
whose action carries a recognized key with a malformed payload raises
`KeyError`, so construction is not total. -/
theorem claim10_counterexample :
    parse_metadata (.obj [("actions", .arr [.obj [("updateTitleAction", .obj [])]])])
      = .error (.keyError "title") :=
  rfl

lemma metaGet_setKey_same (m : List (String × JVal)) (k : String) (v d : JVal) :
    metaGet (setKey m k v) k d = v := by
  induction m with
  | nil => simp [setKey, metaGet, List.lookup]
  | cons p rest ih =>
    obtain ⟨k1, v1⟩ := p
    by_cases hk : k1 = k
    · subst hk
      simp [setKey, metaGet, List.lookup]
    · have hb : (k == k1) = false := by
        rw [beq_eq_false_iff_ne]
        exact Ne.symm hk
      simp only [setKey, hk, if_false, metaGet, List.lookup, hb]
      simpa [metaGet] using ih

lemma metaGet_setKey_other (m : List (String × JVal)) (k k1 : String) (v d : JVal)
    (hne : k1 ≠ k) :
    metaGet (setKey m k1 v) k d = metaGet m k d := by
  have hb1 : (k == k1) = false := by
    rw [beq_eq_false_iff_ne]
    exact Ne.symm hne
  induction m with
  | nil => simp [setKey, metaGet, List.lookup, hb1]
  | cons p rest ih =>
    obtain ⟨k2, v2⟩ := p
    by_cases hk : k2 = k1
    · subst hk
      simp [setKey, metaGet, List.lookup, hb1]
    · simp only [setKey, hk, if_false]
      by_cases hkk : k = k2
      · subst hkk
        simp [metaGet, List.lookup]
      · have hb2 : (k == k2) = false := by
          rw [beq_eq_false_iff_ne]
          exact hkk
        simp only [metaGet, List.lookup, hb2]
        simpa [metaGet] using ih

/-- Claim C10 amended: a metadata dict with no `actions` key parses to
the empty mapping (and construction cannot raise there); `get` is total,
returning the most recently assigned value for a key (later actions
overwrite earlier ones) and the default when the key was never supplied;
`[]`-indexing raises `KeyError` on a missing key.  (Construction can
still raise when a recognized action payload is malformed, per the
counterexample.) -/
theorem claim10_metadata_get_total :
    (∀ fs : List (String × JVal), (JVal.obj fs).hasKey "actions" = false →
       parse_metadata (.obj fs) = .ok [])
    ∧ (∀ (m : List (String × JVal)) (k : String) (v d : JVal),
       metaGet (setKey m k v) k d = v)
    ∧ (∀ (m : List (String × JVal)) (k k1 : String) (v d : JVal), k1 ≠ k →
       metaGet (setKey m k1 v) k d = metaGet m k d)
    ∧ (∀ (m : List (String × JVal)) (k : String) (d : JVal), m.lookup k = none →
       metaGet m k d = d)
    ∧ (∀ (m : List (String × JVal)) (k : String), m.lookup k = none →
       metaGetItem m k = .error (.keyError k)) := by
  refine ⟨?_, metaGet_setKey_same, metaGet_setKey_other, ?_, ?_⟩
  · intro fs h
    have hl : fs.lookup "actions" = none := by
      cases hlk : fs.lookup "actions" with
      | none => rfl
      | some v => simp [JVal.hasKey, JVal.getKey?, hlk] at h
    simp [parse_metadata, pyGetD, hl, asList_arr, List.foldlM]
    rfl
  · intro m k d h
    simp [metaGet, h]
  · intro m k h
    simp [metaGetItem, h]

/-- Witness for the amended C10 at concrete inputs. -/
theorem claim10_witness :
    parse_metadata (.obj [("videoDetails", .null)]) = .ok [] ∧
    metaGet (setKey [("title", .str "old")] "title" (.str "new")) "title" .null = .str "new" ∧
    metaGet (setKey [("title", .str "old")] "viewCount" (.num 7)) "title" .null = .str "old" ∧
    metaGet [] "title" (.str "fallback") = .str "fallback" ∧
    metaGetItem [] "title" = .error (.keyError "title") :=
  ⟨claim10_metadata_get_total.1 [("videoDetails", .null)] rfl,
   claim10_metadata_get_total.2.1 [("title", .str "old")] "title" (.str "new") .null,
   claim10_metadata_get_total.2.2.1 [("title", .str "old")] "title" "viewCount" (.num 7) .null
     (by decide),
   claim10_metadata_get_total.2.2.2.1 [] "title" (.str "fallback") rfl,
   claim10_metadata_get_total.2.2.2.2 [] "title" rfl⟩

end PytubeSearch
